import Mathlib

/-!
Verification of the Tractable Buffer Stock demo notebook
(`src/notebooks/TractableBufferStockQuickDemo.ipynb`).

The repository holds a single notebook: its only code is the parameter
dictionary, the global `MyTBStype` object, and the plotting callback
`makeTBSplot`, which mutates the global object's attributes, calls
`solve()` inside a bare `try/except`, and then draws up to four plot
elements.  The solver itself (`TractableConsumerType`) lives in an
external library that is not part of the repository, so the solver
operations are modelled from the specification (each such definition
says so in its doc comment); the notebook callback is embedded from
the source.
-/

namespace TBS

open Real

open scoped Classical

/-- Modelled from the spec (§3 DATA MODEL): the five model parameters
`{ p, β, R, Γ, ρ }` of the Tractable Buffer Stock model.  In the notebook
these are the attributes `UnempPrb`, `DiscFac`, `Rfree`, `PermGroFac`,
`CRRA` of `MyTBStype`. -/
structure ModelParameters where
  p : ℝ
  β : ℝ
  R : ℝ
  Γ : ℝ
  ρ : ℝ

/-- Modelled from the spec (§3): the domain constraints on the parameters,
`p ∈ (0,1)`, `β ∈ (0,1)`, `R > 0`, `Γ > 0`, `ρ > 0`, `ρ ≠ 1`. -/
def ModelParameters.Valid (P : ModelParameters) : Prop :=
  0 < P.p ∧ P.p < 1 ∧ 0 < P.β ∧ P.β < 1 ∧ 0 < P.R ∧ 0 < P.Γ ∧ 0 < P.ρ ∧ P.ρ ≠ 1

/-- Modelled from the spec (§4.1): the marginal propensity to consume while
permanently unemployed, `κ_U = 1 − (Rβ)^(1/ρ) / R`. -/
noncomputable def κU (P : ModelParameters) : ℝ :=
  1 - (P.R * P.β) ^ ((1 : ℝ) / P.ρ) / P.R

/-- Modelled from the spec (§4.1): the condition `(Rβ)^(1/ρ) < R` under which
the unemployed value function is finite; its failure is the
`DivergentValueError` case. -/
def divergenceCond (P : ModelParameters) : Prop :=
  (P.R * P.β) ^ ((1 : ℝ) / P.ρ) < P.R

/-- Modelled from the spec (§4.2): the growth-impatience condition
`(Rβ(1−p))^(1/ρ) / Γ < 1` required for a target to exist. -/
def growthImpatienceCond (P : ModelParameters) : Prop :=
  (P.R * P.β * (1 - P.p)) ^ ((1 : ℝ) / P.ρ) / P.Γ < 1

/-- The unemployment-compensated permanent income growth factor
`Γ̂ = Γ/(1−p)`.  The notebook's dictionary labels `PermGroFac` as the
"uncompensated" growth factor and its sustainable-consumption line uses the
attribute `PermGroFacCmp`; this is that compensated factor. -/
noncomputable def ΓCmp (P : ModelParameters) : ℝ := P.Γ / (1 - P.p)

/-- Modelled from the spec (§4.2): denominator of the closed-form target.
The target `(m*, c*)` is obtained by intersecting the two steady-state
conditions: (i) the sustainable-consumption line drawn by the notebook,
`c = Γ̂/R + m (1 − Γ̂/R)` (resources stationary), and (ii) expected
consumption growth equal to `Γ` at the target, where next period the
consumer is unemployed with probability `p` and then consumes
`κ_U · R (m* − c*)`, which reduces to `κ_U R (m* − c*) = Γ c*`.
Eliminating `c*` gives `m* = 1 + 1/D` and `c* = (κ_U/(1−p)) · (1/D)`
with `D = κ_U/(1−p) + Γ̂/R − 1`. -/
noncomputable def targD (P : ModelParameters) : ℝ :=
  κU P / (1 - P.p) + ΓCmp P / P.R - 1

/-- Modelled from the spec (§4.2): the target level of market resources
`m*` (see `targD` for the derivation). -/
noncomputable def mTargF (P : ModelParameters) : ℝ := 1 + 1 / targD P

/-- Modelled from the spec (§4.2): the target level of consumption `c*`
(see `targD` for the derivation). -/
noncomputable def cTargF (P : ModelParameters) : ℝ :=
  (κU P / (1 - P.p)) * (1 / targD P)

/-- Modelled from the spec (§7 ERROR HANDLING): the three failure kinds, each
carrying the offending parameter set or input. -/
inductive SolverError where
  | DivergentValueError (P : ModelParameters)
  | NoTargetError (P : ModelParameters)
  | DomainError (m : ℝ)

/-- Modelled from the spec (§4.1 `computeUnemployedRule`): returns `κ_U`
when `(Rβ)^(1/ρ) < R`, else fails with `DivergentValueError`. -/
noncomputable def computeUnemployedRule (P : ModelParameters) :
    Except SolverError ℝ :=
  if divergenceCond P then .ok (κU P) else .error (.DivergentValueError P)

/-- Modelled from the spec (§4.2 `computeTarget`): checks the
growth-impatience condition and on success returns the closed-form target
pair; else fails with `NoTargetError`. -/
noncomputable def computeTarget (P : ModelParameters) :
    Except SolverError (ℝ × ℝ) :=
  if growthImpatienceCond P then .ok (mTargF P, cTargF P)
  else .error (.NoTargetError P)

/-- Modelled from the spec (§4.3 `buildEmployedRule`): one backward step of
the Euler recursion.  Given the next-period knot `(m', c')` on the employed
rule, market resources are rolled back through the budget constraint
(`m − c = (Γ̂/R)(m' − 1)`, the normalized dynamics behind the notebook's
sustainable line) and consumption through the first-order condition,
weighting next-period marginal utility by `1−p` on the employed branch and
`p` on the unemployed branch (where next-period consumption is
`κ_U · R (m − c)`).  The spec leaves the step's exact normalisation
constants open (§9), so this is one faithful instantiation. -/
noncomputable def stepDown (P : ModelParameters) (knot : ℝ × ℝ) : ℝ × ℝ :=
  let a := (ΓCmp P / P.R) * (knot.1 - 1)
  let c := (P.β * P.R *
      ((1 - P.p) * (ΓCmp P * knot.2) ^ (-P.ρ) +
        P.p * (κU P * (P.R * a)) ^ (-P.ρ))) ^ (-((1 : ℝ) / P.ρ))
  (a + c, c)

/-- Modelled from the spec (§4.3 `buildEmployedRule`): one forward step of
the recursion, inverting `stepDown`: the next-period resources follow the
budget constraint and next-period employed consumption is solved out of
the first-order condition. -/
noncomputable def stepUp (P : ModelParameters) (knot : ℝ × ℝ) : ℝ × ℝ :=
  let mN := (P.R / ΓCmp P) * (knot.1 - knot.2) + 1
  let cN := (1 / ΓCmp P) *
      (((knot.2 ^ (-P.ρ) / (P.β * P.R) -
          P.p * (κU P * (P.R * (knot.1 - knot.2))) ^ (-P.ρ)) /
        (1 - P.p))) ^ (-((1 : ℝ) / P.ρ))
  (mN, cN)

/-- Modelled from the spec (§3, §4.3): knots below the target, produced by
iterating the backward step while it keeps producing strictly smaller
positive resource levels (the spec requires the knot sequence to be ordered
over the grid of nonnegative normalized market resources). The returned
list is in decreasing order of `m`, starting just below the seed. -/
noncomputable def collectBelow (P : ModelParameters) :
    ℕ → ℝ × ℝ → List (ℝ × ℝ)
  | 0, _ => []
  | n + 1, cur =>
    if (stepDown P cur).1 < cur.1 ∧ 0 < (stepDown P cur).1 then
      stepDown P cur :: collectBelow P n (stepDown P cur)
    else []

/-- Modelled from the spec (§3, §4.3): knots above the target, produced by
iterating the forward step while it keeps producing strictly larger
resource levels.  The returned list is in increasing order of `m`. -/
noncomputable def collectAbove (P : ModelParameters) :
    ℕ → ℝ × ℝ → List (ℝ × ℝ)
  | 0, _ => []
  | n + 1, cur =>
    if cur.1 < (stepUp P cur).1 then
      stepUp P cur :: collectAbove P n (stepUp P cur)
    else []

/-- Modelled from the spec (§3 DATA MODEL): the employed consumption
function, an ordered sequence of `(m, c)` knot pairs. -/
structure EmployedConsumptionFunction where
  knots : List (ℝ × ℝ)

/-- Linear interpolation through the two points `pk` and `qk`, also usable
as the linear extension beyond them. -/
noncomputable def lininterp (pk qk : ℝ × ℝ) (m : ℝ) : ℝ :=
  pk.2 + (m - pk.1) * ((qk.2 - pk.2) / (qk.1 - pk.1))

/-- Modelled from the spec (§4.3, §4.4): evaluation of an ordered knot list
at `m`, assuming `m` is at or beyond the first knot.  Between bracketing
knots the value is linearly interpolated; beyond the last knot the last
segment is extended linearly; a single knot is joined linearly to the
origin (the policy's `m=0` implies `c=0` constraint). -/
noncomputable def evalKnots : List (ℝ × ℝ) → ℝ → ℝ
  | [], _ => 0
  | [pk], m => lininterp (0, 0) pk m
  | [pk, qk], m => lininterp pk qk m
  | pk :: qk :: rk :: rest, m =>
    if m < qk.1 then lininterp pk qk m else evalKnots (qk :: rk :: rest) m

/-- Evaluation of a knot list at `m`: below the first knot the rule is the
straight line through the origin and the first knot (so that `m = 0`
yields `c = 0`); from the first knot on, `evalKnots` applies. -/
noncomputable def evalFull : List (ℝ × ℝ) → ℝ → ℝ
  | [], _ => 0
  | pk :: rest, m =>
    if m < pk.1 then lininterp (0, 0) pk m else evalKnots (pk :: rest) m

/-- Modelled from the spec (§4.4 `evaluateEmployed`): interpolate the
employed rule at `m`. -/
noncomputable def evaluateEmployed (cf : EmployedConsumptionFunction)
    (m : ℝ) : ℝ :=
  evalFull cf.knots m

/-- Modelled from the spec (§4.4): checked evaluation of the employed rule,
failing with `DomainError` on negative market resources. -/
noncomputable def evaluateEmployedChecked (cf : EmployedConsumptionFunction)
    (m : ℝ) : Except SolverError ℝ :=
  if m < 0 then .error (.DomainError m) else .ok (evaluateEmployed cf m)

/-- Modelled from the spec (§3, §4.4 `evaluateUnemployed`): the unemployed
rule is the exact closed-form linear function `c_U(m) = κ · m`. -/
noncomputable def evaluateUnemployed (κ m : ℝ) : ℝ := κ * m

/-- Modelled from the spec (§4.4): checked evaluation of the unemployed
rule, failing with `DomainError` on negative market resources. -/
noncomputable def evaluateUnemployedChecked (κ m : ℝ) :
    Except SolverError ℝ :=
  if m < 0 then .error (.DomainError m) else .ok (evaluateUnemployed κ m)

/-- Modelled from the spec (§4.3 `buildEmployedRule`): the employed rule's
knot list, anchored at the analytically computed target point and extended
by the recursion in both directions (`n` grid steps each way). -/
noncomputable def buildEmployedRule (P : ModelParameters) (n : ℕ) :
    EmployedConsumptionFunction :=
  ⟨(collectBelow P n (mTargF P, cTargF P)).reverse ++
    (mTargF P, cTargF P) :: collectAbove P n (mTargF P, cTargF P)⟩

/-- Modelled from the spec (§2): the solved artifact exposed to the demo:
`cFunc_U`'s slope `κ_U`, the target pair `mTarg`/`cTarg` and the employed
rule `cFunc`. -/
structure Solution where
  kappa : ℝ
  mTarg : ℝ
  cTarg : ℝ
  cFunc : EmployedConsumptionFunction

/-- The solution built from a parameter set that passed both checks. -/
noncomputable def mkSolution (P : ModelParameters) (n : ℕ) : Solution :=
  ⟨κU P, mTargF P, cTargF P, buildEmployedRule P n⟩

/-- Modelled from the spec (§4 `solve`): run `computeUnemployedRule`, then
`computeTarget`, then build the employed rule with `n` grid steps on each
side; the first failing check aborts the solve with its error. -/
noncomputable def solveModel (n : ℕ) (P : ModelParameters) :
    Except SolverError Solution :=
  (computeUnemployedRule P).bind fun _ =>
    (computeTarget P).bind fun _ => .ok (mkSolution P n)

/-- The concrete success scenario of spec §8:
`{p = 0.00625, β = 0.975, R = 1.01, Γ = 1.0025, ρ = 1.5}`. -/
noncomputable def P7 : ModelParameters := ⟨0.00625, 0.975, 1.01, 1.0025, 1.5⟩

/-- The concrete scenario of spec §8 with `Γ` raised to `1.15`, the other
parameters as in `P7`. -/
noncomputable def P6 : ModelParameters := ⟨0.00625, 0.975, 1.01, 1.15, 1.5⟩

/-- A parameter set on which the growth-impatience condition genuinely
fails: as `P7` but with `Γ` lowered to `0.9`. -/
noncomputable def Pntf : ModelParameters := ⟨0.00625, 0.975, 1.01, 0.9, 1.5⟩

/-- A valid parameter set on which the divergence condition fails:
`{p = 0.5, β = 0.9, R = 0.5, Γ = 1, ρ = 2}` (here `(Rβ)^(1/ρ) = √0.45 ≥ 0.5 = R`). -/
noncomputable def Pdf : ModelParameters := ⟨0.5, 0.9, 0.5, 1, 2⟩

end TBS

namespace NB

open TBS

/-- The mutable state of the notebook's global `MyTBStype` object: the five
parameter attributes written by the sliders, plus the attributes created by
a successful `solve()` (`solution` and `PermGroFacCmp`), which are absent
(`none`) until the first successful solve. -/
structure TBSState where
  DiscFac : ℝ
  CRRA : ℝ
  Rfree : ℝ
  PermGroFac : ℝ
  UnempPrb : ℝ
  solution : Option Solution
  permGroFacCmp : Option ℝ

/-- The model parameters currently stored in the object's attributes. -/
def paramsOf (st : TBSState) : ModelParameters :=
  ⟨st.UnempPrb, st.DiscFac, st.Rfree, st.PermGroFac, st.CRRA⟩

/-- The attribute writes at the top of `makeTBSplot`: the callback assigns
`DiscFac`, `CRRA`, `PermGroFac` and `UnempPrb` onto the global object and
never assigns `Rfree`. -/
def writeAttrs (st : TBSState) (DiscFac CRRA PermGroFac UnempPrb : ℝ) :
    TBSState :=
  { st with DiscFac := DiscFac, CRRA := CRRA,
            PermGroFac := PermGroFac, UnempPrb := UnempPrb }

/-- Python-level failure of the callback body: accessing `solution` or
`PermGroFacCmp` on the object before any successful solve raises. -/
inductive PyError where
  | AttributeError
deriving DecidableEq

/-- What the callback renders: the printed messages, the employed-rule
curve, the sustainable-consumption line endpoints, the retired/unemployed
curve, and the target marker. -/
structure PlotOutput where
  printed : List String
  empCurve : Option (List (ℝ × ℝ))
  sustLine : Option ((ℝ × ℝ) × (ℝ × ℝ))
  retCurve : Option (List (ℝ × ℝ))
  targPoint : Option (ℝ × ℝ)

/-- The single message printed by the bare `except:` branch. -/
def failMessage : String :=
  "Those parameter values violate a condition required for solution!"

/-- `np.linspace(a, b, num)`. -/
noncomputable def linspace (a b : ℝ) (num : ℕ) : List ℝ :=
  (List.range num).map fun i => a + (b - a) * (i : ℝ) / ((num : ℝ) - 1)

/-- The external library's grid density is not visible from the notebook
(spec §9 leaves it open); the embedding fixes an arbitrary default. -/
def gridDefault : ℕ := 50

/-- One plotted point of the employed consumption function, after the
notebook's patch `c[m == 0.] = 0.`. -/
noncomputable def empPointVal (sol : Solution) (mi : ℝ) : ℝ :=
  if mi = 0 then 0 else evaluateEmployed sol.cFunc mi

/-- Attribute read `MyTBStype.solution[0]`. -/
def fetchSolution (st : TBSState) : Except PyError Solution :=
  match st.solution with
  | none => .error .AttributeError
  | some s => .ok s

/-- Attribute read `MyTBStype.PermGroFacCmp`. -/
def fetchPermGroFacCmp (st : TBSState) : Except PyError ℝ :=
  match st.permGroFacCmp with
  | none => .error .AttributeError
  | some g => .ok g

/-- A plot element guarded by its checkbox. -/
def ifPlot {α : Type} (b : Bool) (x : Except PyError α) :
    Except PyError (Option α) :=
  if b then x.map some else .ok none

/-- Embedding of the notebook's `makeTBSplot` callback.  It writes the four
slider parameters onto the global object (never `Rfree`), calls `solve()`
inside a bare `try/except` whose handler only prints `failMessage`, and
then unconditionally proceeds to draw the requested plot elements from the
object's current attributes, returning the updated global state and the
rendered output (or the uncaught Python error, if an attribute created by
a successful solve is accessed before one ever happened). -/
noncomputable def makeTBSplot (st : TBSState)
    (DiscFac CRRA Rfree PermGroFac UnempPrb mMax mMin cMin cMax : ℝ)
    (plot_emp plot_ret plot_mSS show_targ : Bool) :
    Except PyError (TBSState × PlotOutput) :=
  let st1 := writeAttrs st DiscFac CRRA PermGroFac UnempPrb
  let solveResult := solveModel gridDefault (paramsOf st1)
  let st2 : TBSState :=
    match solveResult with
    | .ok sol =>
      { st1 with
        solution := some sol
        permGroFacCmp := some (ΓCmp (paramsOf st1)) }
    | .error _ => st1
  let printed : List String :=
    match solveResult with
    | .ok _ => []
    | .error _ => [failMessage]
  let grid := linspace mMin mMax 100
  (ifPlot plot_emp ((fetchSolution st2).map fun sol =>
      grid.map fun mi => (mi, empPointVal sol mi))).bind fun empCurve =>
  (ifPlot plot_mSS ((fetchPermGroFacCmp st2).map fun g =>
      ((mMin, g / st2.Rfree + mMin * (1 - g / st2.Rfree)),
       (mMax, g / st2.Rfree + mMax * (1 - g / st2.Rfree))))).bind
    fun sustLine =>
  (ifPlot plot_ret ((fetchSolution st2).map fun sol =>
      grid.map fun mi => (mi, evaluateUnemployed sol.kappa mi))).bind
    fun retCurve =>
  (ifPlot show_targ ((fetchSolution st2).map fun sol =>
      (sol.mTarg, sol.cTarg))).bind fun targ =>
  .ok (st2, ⟨printed, empCurve, sustLine, retCurve, targ⟩)

/-- An arbitrary stale solution, standing for whatever an earlier
successful solve left on the global object. -/
def dummySolution : TBS.Solution := ⟨0, 0, 0, ⟨[]⟩⟩

/-- A notebook state whose attributes were populated by an earlier
successful solve and whose `Rfree` is `0.5`, so that the slider values of
`Pdf` make the next solve fail. -/
def stDF : TBSState := ⟨0.95, 2.5, 0.5, 1.0025, 0.00625, some dummySolution, some 1⟩

/-- A freshly constructed notebook state (no successful solve yet) with
the dictionary's `Rfree = 1.01`. -/
def stFresh : TBSState := ⟨0.975, 2.5, 1.01, 1.0025, 0.00625, none, none⟩

/-- A state with the same `Rfree` as `stFresh` but different leftover
attributes (stale solution and all other parameters different). -/
def stOther : TBSState := ⟨0.5, 1.5, 1.01, 1.1, 0.3, some dummySolution, some 2⟩

end NB

namespace TBS

open Real

open scoped Classical

/-- A `k`-th root bound: if `c ^ k ≤ x` with `c ≥ 0` then `c ≤ x ^ (1/k)`. -/
theorem le_rpow_of_pow_le {c x : ℝ} {k : ℕ} (hk : 0 < k) (hc : 0 ≤ c)
    (h : c ^ k ≤ x) : c ≤ x ^ (1 / (k : ℝ)) := by
  have hk' : ((k : ℝ)) ≠ 0 := Nat.cast_ne_zero.mpr hk.ne'
  have h1 : c = ((c ^ k : ℝ)) ^ (1 / (k : ℝ)) := by
    rw [← Real.rpow_natCast c k, ← Real.rpow_mul hc, mul_one_div,
      div_self hk', Real.rpow_one]
  rw [h1]
  exact Real.rpow_le_rpow (pow_nonneg hc k) h (by positivity)

/-- `x ^ (1/1.5)` is the cube root of `x²` (used for bounds at `ρ = 1.5`). -/
theorem rpow_inv_onePointFive {x : ℝ} (hx : 0 ≤ x) :
    x ^ ((1 : ℝ) / 1.5) = (x ^ 2) ^ (1 / ((2 + 1 : ℕ) : ℝ)) := by
  rw [← Real.rpow_natCast x 2, ← Real.rpow_mul hx]
  norm_num

/-- The divergence condition holds at the baseline parameters `P7`. -/
theorem divergenceCond_P7 : divergenceCond P7 := by
  show (1.01 * 0.975 : ℝ) ^ ((1 : ℝ) / 1.5) < 1.01
  have h : (1.01 * 0.975 : ℝ) ^ ((1 : ℝ) / 1.5) < 1 :=
    Real.rpow_lt_one (by norm_num) (by norm_num) (by norm_num)
  linarith

/-- The divergence condition holds at `P6` (same `p`, `β`, `R`, `ρ` as `P7`). -/
theorem divergenceCond_P6 : divergenceCond P6 := by
  show (1.01 * 0.975 : ℝ) ^ ((1 : ℝ) / 1.5) < 1.01
  exact divergenceCond_P7

/-- The divergence condition holds at `Pntf` (same `p`, `β`, `R`, `ρ` as `P7`). -/
theorem divergenceCond_Pntf : divergenceCond Pntf := by
  show (1.01 * 0.975 : ℝ) ^ ((1 : ℝ) / 1.5) < 1.01
  exact divergenceCond_P7

/-- The growth-impatience condition holds at the baseline parameters `P7`. -/
theorem growthImpatienceCond_P7 : growthImpatienceCond P7 := by
  show (1.01 * 0.975 * (1 - 0.00625) : ℝ) ^ ((1 : ℝ) / 1.5) / 1.0025 < 1
  have h : (1.01 * 0.975 * (1 - 0.00625) : ℝ) ^ ((1 : ℝ) / 1.5) < 1 :=
    Real.rpow_lt_one (by norm_num) (by norm_num) (by norm_num)
  rw [div_lt_one (by norm_num : (0 : ℝ) < 1.0025)]
  linarith

/-- The growth-impatience condition also holds with `Γ` raised to `1.15`:
raising `Γ` only lowers the ratio `(Rβ(1−p))^(1/ρ)/Γ`. -/
theorem growthImpatienceCond_P6 : growthImpatienceCond P6 := by
  show (1.01 * 0.975 * (1 - 0.00625) : ℝ) ^ ((1 : ℝ) / 1.5) / 1.15 < 1
  have h : (1.01 * 0.975 * (1 - 0.00625) : ℝ) ^ ((1 : ℝ) / 1.5) < 1 :=
    Real.rpow_lt_one (by norm_num) (by norm_num) (by norm_num)
  rw [div_lt_one (by norm_num : (0 : ℝ) < 1.15)]
  linarith

/-- With `Γ` lowered to `0.9` the growth-impatience condition fails:
`(1.01·0.975·0.99375)^(2/3) ≥ 0.9` because `0.9³ ≤ (1.01·0.975·0.99375)²`. -/
theorem not_growthImpatienceCond_Pntf : ¬ growthImpatienceCond Pntf := by
  show ¬ ((1.01 * 0.975 * (1 - 0.00625) : ℝ) ^ ((1 : ℝ) / 1.5) / 0.9 < 1)
  have hx : (0 : ℝ) ≤ 1.01 * 0.975 * (1 - 0.00625) := by norm_num
  have h : (0.9 : ℝ) ≤ (1.01 * 0.975 * (1 - 0.00625) : ℝ) ^ ((1 : ℝ) / 1.5) := by
    rw [rpow_inv_onePointFive hx]
    exact le_rpow_of_pow_le (by norm_num) (by norm_num) (by norm_num)
  rw [not_lt, le_div_iff₀ (by norm_num : (0 : ℝ) < 0.9)]
  linarith

/-- At `Pdf` the divergence condition fails: `√0.45 ≥ 0.5`. -/
theorem not_divergenceCond_Pdf : ¬ divergenceCond Pdf := by
  show ¬ ((0.5 * 0.9 : ℝ) ^ ((1 : ℝ) / 2) < 0.5)
  rw [not_lt]
  have h2 : ((1 : ℝ) / 2) = 1 / (((1 + 1 : ℕ)) : ℝ) := by norm_num
  rw [h2]
  exact le_rpow_of_pow_le (by norm_num) (by norm_num) (by norm_num)

/-- `P7` satisfies the spec's domain constraints. -/
theorem valid_P7 : P7.Valid := by
  unfold ModelParameters.Valid P7
  norm_num

/-- `P6` satisfies the spec's domain constraints. -/
theorem valid_P6 : P6.Valid := by
  unfold ModelParameters.Valid P6
  norm_num

/-- Under the divergence condition the unemployed MPC is positive. -/
theorem κU_pos {P : ModelParameters} (hR : 0 < P.R)
    (hdiv : divergenceCond P) : 0 < κU P := by
  unfold κU
  have h : (P.R * P.β) ^ ((1 : ℝ) / P.ρ) / P.R < 1 := (div_lt_one hR).mpr hdiv
  linarith

/-- For valid parameters satisfying the divergence condition, the target
denominator exceeds `−1`. -/
theorem targD_gt_negOne {P : ModelParameters} (hv : P.Valid)
    (hdiv : divergenceCond P) : -1 < targD P := by
  obtain ⟨hp, hp1, hβ, hβ1, hR, hΓ, hρ, hρ1⟩ := hv
  have h1 : 0 < κU P / (1 - P.p) := div_pos (κU_pos hR hdiv) (by linarith)
  have h2 : 0 < ΓCmp P / P.R := div_pos (div_pos hΓ (by linarith)) hR
  unfold targD
  linarith

/-- For valid parameters satisfying the divergence condition, the target
level of resources is nonzero (this backs the `m = 0` corner of the
interpolation policy). -/
theorem mTargF_ne_zero {P : ModelParameters} (hv : P.Valid)
    (hdiv : divergenceCond P) : mTargF P ≠ 0 := by
  have hD : -1 < targD P := targD_gt_negOne hv hdiv
  unfold mTargF
  rcases lt_trichotomy (targD P) 0 with hneg | h0 | hpos
  · have h1 : 1 / targD P < -1 := by
      rw [div_lt_iff_of_neg hneg]
      linarith
    have h2 : 1 + 1 / targD P < 0 := by linarith
    exact ne_of_lt h2
  · rw [h0, div_zero]
    norm_num
  · have h1 : 0 < 1 / targD P := by positivity
    have h2 : 0 < 1 + 1 / targD P := by linarith
    exact ne_of_gt h2

/-- Every knot collected below the seed has strictly smaller resources. -/
theorem collectBelow_lt (P : ModelParameters) :
    ∀ (n : ℕ) (cur : ℝ × ℝ), ∀ x ∈ collectBelow P n cur, x.1 < cur.1 := by
  intro n
  induction n with
  | zero => intro cur x hx; simp [collectBelow] at hx
  | succ n ih =>
    intro cur x hx
    simp only [collectBelow] at hx
    by_cases h : (stepDown P cur).1 < cur.1 ∧ 0 < (stepDown P cur).1
    · rw [if_pos h] at hx
      rcases List.mem_cons.mp hx with rfl | hx'
      · exact h.1
      · exact lt_trans (ih _ x hx') h.1
    · rw [if_neg h] at hx
      simp at hx

/-- The first knot collected above the seed (when any) has strictly larger
resources. -/
theorem collectAbove_head (P : ModelParameters) (n : ℕ) (cur : ℝ × ℝ) :
    ∀ y ∈ (collectAbove P n cur).head?, cur.1 < y.1 := by
  cases n with
  | zero => intro y hy; simp [collectAbove] at hy
  | succ n =>
    intro y hy
    simp only [collectAbove] at hy
    by_cases h : cur.1 < (stepUp P cur).1
    · rw [if_pos h] at hy
      simp at hy
      rw [← hy]
      exact h
    · rw [if_neg h] at hy
      simp at hy

/-- Scanning past the first knot when the query lies at or beyond the
second knot. -/
theorem evalKnots_cons_cons (pk qk : ℝ × ℝ) (l : List (ℝ × ℝ)) (hl : l ≠ [])
    (m : ℝ) (hm : ¬ m < qk.1) :
    evalKnots (pk :: qk :: l) m = evalKnots (qk :: l) m := by
  cases l with
  | nil => exact absurd rfl hl
  | cons r rest =>
    have he : evalKnots (pk :: qk :: r :: rest) m =
        if m < qk.1 then lininterp pk qk m else evalKnots (qk :: r :: rest) m := rfl
    rw [he, if_neg hm]

/-- The scan is exact at a designated knot `a`, provided every knot to its
left has strictly smaller resources, the first knot to its right (if any)
has strictly larger resources, and `a` is not at the origin. -/
theorem evalKnots_anchor (a : ℝ × ℝ) :
    ∀ (L Rst : List (ℝ × ℝ)), (∀ x ∈ L, x.1 < a.1) →
      (∀ y ∈ Rst.head?, a.1 < y.1) → a.1 ≠ 0 →
      evalKnots (L ++ a :: Rst) a.1 = a.2 := by
  intro L
  induction L with
  | nil =>
    intro Rst hL hR ha
    cases Rst with
    | nil =>
      show lininterp (0, 0) a a.1 = a.2
      unfold lininterp
      field_simp
    | cons q R' =>
      have hq : a.1 < q.1 := hR q (by simp)
      cases R' with
      | nil =>
        show lininterp a q a.1 = a.2
        unfold lininterp
        simp
      | cons r R'' =>
        have he : evalKnots (a :: q :: r :: R'') a.1 =
            if a.1 < q.1 then lininterp a q a.1
            else evalKnots (q :: r :: R'') a.1 := rfl
        show evalKnots (a :: q :: r :: R'') a.1 = a.2
        rw [he, if_pos hq]
        unfold lininterp
        simp
  | cons pk L' ih =>
    intro Rst hL hR ha
    have hpk : pk.1 < a.1 := hL pk (by simp)
    cases L' with
    | nil =>
      cases Rst with
      | nil =>
        show lininterp pk a a.1 = a.2
        have hne : a.1 - pk.1 ≠ 0 := sub_ne_zero.mpr (ne_of_gt hpk)
        unfold lininterp
        field_simp
      | cons q R' =>
        have step : evalKnots (pk :: a :: q :: R') a.1 =
            evalKnots (a :: q :: R') a.1 :=
          evalKnots_cons_cons pk a (q :: R') (by simp) a.1 (lt_irrefl a.1)
        show evalKnots (pk :: a :: q :: R') a.1 = a.2
        rw [step]
        exact ih (q :: R') (by simp) hR ha
    | cons pk' L'' =>
      have hpk' : pk'.1 < a.1 := hL pk' (by simp)
      have step : evalKnots (pk :: pk' :: (L'' ++ a :: Rst)) a.1 =
          evalKnots (pk' :: (L'' ++ a :: Rst)) a.1 :=
        evalKnots_cons_cons pk pk' (L'' ++ a :: Rst) (by simp) a.1
          (not_lt.mpr (le_of_lt hpk'))
      show evalKnots (pk :: pk' :: (L'' ++ a :: Rst)) a.1 = a.2
      rw [step]
      exact ih Rst (fun x hx => hL x (List.mem_cons_of_mem pk hx)) hR ha

/-- Full evaluation is exact at a designated knot `a`. -/
theorem evalFull_anchor (a : ℝ × ℝ) (L Rst : List (ℝ × ℝ))
    (hL : ∀ x ∈ L, x.1 < a.1) (hR : ∀ y ∈ Rst.head?, a.1 < y.1)
    (ha : a.1 ≠ 0) : evalFull (L ++ a :: Rst) a.1 = a.2 := by
  cases L with
  | nil =>
    have he : evalFull (a :: Rst) a.1 =
        if a.1 < a.1 then lininterp (0, 0) a a.1
        else evalKnots (a :: Rst) a.1 := rfl
    show evalFull (a :: Rst) a.1 = a.2
    rw [he, if_neg (lt_irrefl a.1)]
    exact evalKnots_anchor a [] Rst (by simp) hR ha
  | cons pk L' =>
    have hpk : pk.1 < a.1 := hL pk (by simp)
    have he : evalFull (pk :: (L' ++ a :: Rst)) a.1 =
        if a.1 < pk.1 then lininterp (0, 0) pk a.1
        else evalKnots (pk :: (L' ++ a :: Rst)) a.1 := rfl
    show evalFull (pk :: (L' ++ a :: Rst)) a.1 = a.2
    rw [he, if_neg (not_lt.mpr (le_of_lt hpk))]
    exact evalKnots_anchor a (pk :: L') Rst hL hR ha

/-- The solved employed rule is exact at its target anchor whenever the
target resource level is nonzero. -/
theorem buildEmployedRule_anchor (P : ModelParameters) (n : ℕ)
    (ha : mTargF P ≠ 0) :
    evaluateEmployed (buildEmployedRule P n) (mTargF P) = cTargF P := by
  unfold evaluateEmployed buildEmployedRule
  exact evalFull_anchor (mTargF P, cTargF P) _ _
    (fun x hx => collectBelow_lt P n _ x (List.mem_reverse.mp hx))
    (collectAbove_head P n _) ha

/-- `computeUnemployedRule` succeeds with `κ_U` under the divergence
condition. -/
theorem computeUnemployedRule_ok {P : ModelParameters}
    (h : divergenceCond P) : computeUnemployedRule P = .ok (κU P) := by
  unfold computeUnemployedRule
  exact if_pos h

/-- `computeUnemployedRule` fails with `DivergentValueError P` when the
divergence condition fails. -/
theorem computeUnemployedRule_err {P : ModelParameters}
    (h : ¬ divergenceCond P) :
    computeUnemployedRule P = .error (.DivergentValueError P) := by
  unfold computeUnemployedRule
  exact if_neg h

/-- `computeTarget` succeeds with the closed-form target under the
growth-impatience condition. -/
theorem computeTarget_ok {P : ModelParameters}
    (h : growthImpatienceCond P) :
    computeTarget P = .ok (mTargF P, cTargF P) := by
  unfold computeTarget
  exact if_pos h

/-- `computeTarget` fails with `NoTargetError P` when the growth-impatience
condition fails. -/
theorem computeTarget_err {P : ModelParameters}
    (h : ¬ growthImpatienceCond P) :
    computeTarget P = .error (.NoTargetError P) := by
  unfold computeTarget
  exact if_neg h

/-- `solveModel` succeeds when both conditions hold. -/
theorem solveModel_ok {P : ModelParameters} {n : ℕ}
    (h1 : divergenceCond P) (h2 : growthImpatienceCond P) :
    solveModel n P = .ok (mkSolution P n) := by
  unfold solveModel
  rw [computeUnemployedRule_ok h1, computeTarget_ok h2]
  rfl

/-- `solveModel` fails with `DivergentValueError P` when the divergence
condition fails. -/
theorem solveModel_err_div {P : ModelParameters} {n : ℕ}
    (h : ¬ divergenceCond P) :
    solveModel n P = .error (.DivergentValueError P) := by
  unfold solveModel
  rw [computeUnemployedRule_err h]
  rfl

/-- `solveModel` fails with `NoTargetError P` when the divergence condition
holds but the growth-impatience condition fails. -/
theorem solveModel_err_targ {P : ModelParameters} {n : ℕ}
    (h1 : divergenceCond P) (h2 : ¬ growthImpatienceCond P) :
    solveModel n P = .error (.NoTargetError P) := by
  unfold solveModel
  rw [computeUnemployedRule_ok h1, computeTarget_err h2]
  rfl

/-- A successful solve can only return the canonical solution, and both
conditions must have held. -/
theorem solveModel_ok_inv {P : ModelParameters} {n : ℕ} {sol : Solution}
    (h : solveModel n P = .ok sol) :
    sol = mkSolution P n ∧ divergenceCond P ∧ growthImpatienceCond P := by
  by_cases h1 : divergenceCond P
  · by_cases h2 : growthImpatienceCond P
    · rw [solveModel_ok h1 h2] at h
      exact ⟨(Except.ok.inj h).symm, h1, h2⟩
    · rw [solveModel_err_targ h1 h2] at h
      exact absurd h (by simp)
  · rw [solveModel_err_div h1] at h
    exact absurd h (by simp)

end TBS

namespace NB

open TBS

/-- A guarded plot element with an available payload always renders. -/
theorem ifPlot_ok {α : Type} (b : Bool) (x : α) :
    ifPlot b (.ok x) = .ok (if b then some x else none) := by
  unfold ifPlot
  cases b <;> simp [Except.map]

/-- The attribute writes preserve `Rfree` and the solve-created attributes. -/
theorem writeAttrs_fields (st : TBSState) (d c g u : ℝ) :
    (writeAttrs st d c g u).Rfree = st.Rfree ∧
    (writeAttrs st d c g u).solution = st.solution ∧
    (writeAttrs st d c g u).permGroFacCmp = st.permGroFacCmp :=
  ⟨rfl, rfl, rfl⟩

end NB

/-- Claim C1 (counterexample): at a prior state holding a stale solution,
slider values that make the solve fail (the attributes written onto `stDF`
form `Pdf`, whose divergence condition fails) produce the user-facing
message AND an employed consumption curve: the plot is not skipped, so the
claim that the collaborator "skips the plot entirely, so that no
consumption function is drawn" is false of the code. -/
theorem claim_C1_counterexample :
    (NB.makeTBSplot NB.stDF 0.9 2 1.03 1 0.5 50 0 0 1.5
        true false false false).map
      (fun r => (r.2.printed, r.2.empCurve.isSome)) =
    .ok ([NB.failMessage], true) := by
  have hs : TBS.solveModel NB.gridDefault
      (NB.paramsOf (NB.writeAttrs NB.stDF 0.9 2 1 0.5)) =
      .error (.DivergentValueError TBS.Pdf) :=
    TBS.solveModel_err_div TBS.not_divergenceCond_Pdf
  simp only [NB.makeTBSplot]
  rw [hs]
  simp [NB.writeAttrs, NB.stDF, NB.fetchSolution, NB.ifPlot, Except.map,
    Except.bind, NB.dummySolution]

/-- Claim C1 (amended): when solving fails, `makeTBSplot` prints the
user-facing message but does not skip the plot: it proceeds to draw the
employed consumption function from the stale solution left by an earlier
successful solve, and the failure is not propagated as a crash. -/
theorem claim_C1_amended (st : NB.TBSState)
    (d c r g u mMax mMin cMin cMax : ℝ)
    (plot_ret plot_mSS show_targ : Bool)
    (sol : TBS.Solution) (gc : ℝ) (err : TBS.SolverError)
    (hsol : st.solution = some sol) (hpg : st.permGroFacCmp = some gc)
    (hfail : TBS.solveModel NB.gridDefault
      (NB.paramsOf (NB.writeAttrs st d c g u)) = .error err) :
    (NB.makeTBSplot st d c r g u mMax mMin cMin cMax
        true plot_ret plot_mSS show_targ).map
      (fun res => (res.2.printed, res.2.empCurve.isSome)) =
    .ok ([NB.failMessage], true) := by
  simp only [NB.makeTBSplot]
  rw [hfail]
  simp [NB.fetchSolution, NB.fetchPermGroFacCmp, NB.writeAttrs, hsol, hpg,
    NB.ifPlot_ok, Except.map, Except.bind]

/-- Claim C1 (witness for the amended theorem), instantiated at the
concrete failing scenario of the counterexample. -/
theorem claim_C1_amended_witness :
    (NB.makeTBSplot NB.stDF 0.9 2 1.03 1 0.5 50 0 0 1.5
        true true true true).map
      (fun res => (res.2.printed, res.2.empCurve.isSome)) =
    .ok ([NB.failMessage], true) :=
  claim_C1_amended NB.stDF 0.9 2 1.03 1 0.5 50 0 0 1.5 true true true
    NB.dummySolution 1 (.DivergentValueError TBS.Pdf) rfl rfl
    (TBS.solveModel_err_div TBS.not_divergenceCond_Pdf)

/-- Claim C2: `makeTBSplot` is entirely independent of its `Rfree`
argument: the callback writes `DiscFac`, `CRRA`, `PermGroFac` and
`UnempPrb` onto the model but never writes `Rfree`, so two calls differing
only in `Rfree` produce identical states and plots (in particular the
solved `cFunc`, `cFunc_U`, `mTarg`, `cTarg` are identical). -/
theorem claim_C2_Rfree_independence (st : NB.TBSState)
    (DiscFac CRRA Rfree1 Rfree2 PermGroFac UnempPrb mMax mMin cMin cMax : ℝ)
    (plot_emp plot_ret plot_mSS show_targ : Bool) :
    NB.makeTBSplot st DiscFac CRRA Rfree1 PermGroFac UnempPrb
      mMax mMin cMin cMax plot_emp plot_ret plot_mSS show_targ =
    NB.makeTBSplot st DiscFac CRRA Rfree2 PermGroFac UnempPrb
      mMax mMin cMin cMax plot_emp plot_ret plot_mSS show_targ := rfl

/-- Claim C3 (counterexample): two different failing parameter sets produce
two distinguishable solver errors carrying their parameters
(`DivergentValueError Pdf` vs `NoTargetError Pntf`), yet both calls surface
to the notebook user as the identical single catch-all message: the bare
`except:` collapses them. -/
theorem claim_C3_counterexample :
    TBS.solveModel NB.gridDefault TBS.Pdf =
      .error (.DivergentValueError TBS.Pdf) ∧
    TBS.solveModel NB.gridDefault TBS.Pntf =
      .error (.NoTargetError TBS.Pntf) ∧
    (NB.makeTBSplot NB.stDF 0.9 2 1.03 1 0.5 50 0 0 1.5
        false false false false).map (fun r => r.2.printed) =
      .ok [NB.failMessage] ∧
    (NB.makeTBSplot NB.stFresh 0.975 1.5 1.01 0.9 0.00625 50 0 0 1.5
        false false false false).map (fun r => r.2.printed) =
      .ok [NB.failMessage] := by
  refine ⟨TBS.solveModel_err_div TBS.not_divergenceCond_Pdf,
    TBS.solveModel_err_targ TBS.divergenceCond_Pntf
      TBS.not_growthImpatienceCond_Pntf, ?_, ?_⟩
  · have hs : TBS.solveModel NB.gridDefault
        (NB.paramsOf (NB.writeAttrs NB.stDF 0.9 2 1 0.5)) =
        .error (.DivergentValueError TBS.Pdf) :=
      TBS.solveModel_err_div TBS.not_divergenceCond_Pdf
    simp only [NB.makeTBSplot]
    rw [hs]
    simp [NB.ifPlot, Except.map, Except.bind]
  · have hs : TBS.solveModel NB.gridDefault
        (NB.paramsOf (NB.writeAttrs NB.stFresh 0.975 1.5 0.9 0.00625)) =
        .error (.NoTargetError TBS.Pntf) :=
      TBS.solveModel_err_targ TBS.divergenceCond_Pntf
        TBS.not_growthImpatienceCond_Pntf
    simp only [NB.makeTBSplot]
    rw [hs]
    simp [NB.ifPlot, Except.map, Except.bind]

/-- Claim C3 (amended): the solver reports the failure kinds as
distinguishable error values carrying the offending parameter set
(`DivergentValueError P`, `NoTargetError P`), but the notebook's bare
`except:` catches every solve failure and collapses it into the single
fixed message, discarding the error value. -/
theorem claim_C3_amended :
    (∀ (P : TBS.ModelParameters) (n : ℕ), ¬ TBS.divergenceCond P →
      TBS.solveModel n P = .error (.DivergentValueError P)) ∧
    (∀ (P : TBS.ModelParameters) (n : ℕ), TBS.divergenceCond P →
      ¬ TBS.growthImpatienceCond P →
      TBS.solveModel n P = .error (.NoTargetError P)) ∧
    (∀ (st : NB.TBSState) (d c r g u mMax mMin cMin cMax : ℝ)
      (err : TBS.SolverError),
      TBS.solveModel NB.gridDefault (NB.paramsOf (NB.writeAttrs st d c g u)) =
        .error err →
      (NB.makeTBSplot st d c r g u mMax mMin cMin cMax
          false false false false).map (fun r => r.2.printed) =
        .ok [NB.failMessage]) := by
  refine ⟨fun P n h => TBS.solveModel_err_div h,
    fun P n h1 h2 => TBS.solveModel_err_targ h1 h2, ?_⟩
  intro st d c r g u mMax mMin cMin cMax err hfail
  simp only [NB.makeTBSplot]
  rw [hfail]
  simp [NB.ifPlot, Except.map, Except.bind]

/-- Claim C3 (witness for the amended theorem), at the two concrete failing
parameter sets. -/
theorem claim_C3_amended_witness :
    TBS.solveModel NB.gridDefault TBS.Pdf =
      .error (.DivergentValueError TBS.Pdf) ∧
    TBS.solveModel NB.gridDefault TBS.Pntf =
      .error (.NoTargetError TBS.Pntf) ∧
    (NB.makeTBSplot NB.stFresh 0.975 1.5 1.01 0.9 0.00625 50 0 0 1.5
        false false false false).map (fun r => r.2.printed) =
      .ok [NB.failMessage] :=
  ⟨claim_C3_amended.1 TBS.Pdf NB.gridDefault TBS.not_divergenceCond_Pdf,
   claim_C3_amended.2.1 TBS.Pntf NB.gridDefault TBS.divergenceCond_Pntf
     TBS.not_growthImpatienceCond_Pntf,
   claim_C3_amended.2.2 NB.stFresh 0.975 1.5 1.01 0.9 0.00625 50 0 0 1.5
     (.NoTargetError TBS.Pntf)
     (TBS.solveModel_err_targ TBS.divergenceCond_Pntf
       TBS.not_growthImpatienceCond_Pntf)⟩

/-- Claim C5: `computeUnemployedRule` returns `κ_U = 1 − (Rβ)^(1/ρ)/R`
exactly when `(Rβ)^(1/ρ) < R`, and fails with `DivergentValueError`
exactly when that inequality fails. -/
theorem claim_C5_computeUnemployedRule (P : TBS.ModelParameters) :
    (TBS.computeUnemployedRule P =
        .ok (1 - (P.R * P.β) ^ ((1 : ℝ) / P.ρ) / P.R) ↔
      (P.R * P.β) ^ ((1 : ℝ) / P.ρ) < P.R) ∧
    (TBS.computeUnemployedRule P = .error (.DivergentValueError P) ↔
      ¬ (P.R * P.β) ^ ((1 : ℝ) / P.ρ) < P.R) := by
  constructor
  · constructor
    · intro h
      by_contra hc
      rw [TBS.computeUnemployedRule_err hc] at h
      exact absurd h (by simp)
    · intro h
      exact TBS.computeUnemployedRule_ok h
  · constructor
    · intro h
      by_contra hc
      rw [TBS.computeUnemployedRule_ok hc] at h
      exact absurd h (by simp)
    · intro h
      exact TBS.computeUnemployedRule_err h

/-- Claim C6 (counterexample): with `Γ` raised to `1.15` and the other
parameters `{p = 0.00625, β = 0.975, R = 1.01, ρ = 1.5}`, the
growth-impatience condition `(Rβ(1−p))^(1/ρ)/Γ < 1` HOLDS (raising `Γ`
only lowers the ratio), so `computeTarget` and `solve` succeed instead of
failing with `NoTargetError` as the claim demands. -/
theorem claim_C6_counterexample :
    ((TBS.P6.R * TBS.P6.β * (1 - TBS.P6.p)) ^ ((1 : ℝ) / TBS.P6.ρ) /
        TBS.P6.Γ < 1) ∧
    TBS.computeTarget TBS.P6 = .ok (TBS.mTargF TBS.P6, TBS.cTargF TBS.P6) ∧
    TBS.solveModel NB.gridDefault TBS.P6 =
      .ok (TBS.mkSolution TBS.P6 NB.gridDefault) :=
  ⟨TBS.growthImpatienceCond_P6,
   TBS.computeTarget_ok TBS.growthImpatienceCond_P6,
   TBS.solveModel_ok TBS.divergenceCond_P6 TBS.growthImpatienceCond_P6⟩

/-- Claim C6 (amended): `computeTarget` fails with `NoTargetError` exactly
when the growth-impatience condition `(Rβ(1−p))^(1/ρ)/Γ < 1` fails; at the
cited parameters with `Γ = 1.15` that condition holds, so solve succeeds
rather than failing with `NoTargetError`. -/
theorem claim_C6_amended :
    (∀ P : TBS.ModelParameters,
      TBS.computeTarget P = .error (.NoTargetError P) ↔
        ¬ ((P.R * P.β * (1 - P.p)) ^ ((1 : ℝ) / P.ρ) / P.Γ < 1)) ∧
    TBS.solveModel NB.gridDefault TBS.P6 =
      .ok (TBS.mkSolution TBS.P6 NB.gridDefault) := by
  constructor
  · intro P
    constructor
    · intro h hc
      rw [TBS.computeTarget_ok hc] at h
      exact absurd h (by simp)
    · intro h
      exact TBS.computeTarget_err h
  · exact TBS.solveModel_ok TBS.divergenceCond_P6 TBS.growthImpatienceCond_P6

namespace TBS

/-- The target denominator is positive at the baseline parameters `P7`. -/
theorem targD_P7_pos : 0 < targD P7 := by
  show (0 : ℝ) <
    (1 - (1.01 * 0.975 : ℝ) ^ ((1 : ℝ) / 1.5) / 1.01) / (1 - 0.00625) +
      (1.0025 / (1 - 0.00625)) / 1.01 - 1
  have hq1 : (1.01 * 0.975 : ℝ) ^ ((1 : ℝ) / 1.5) < 1 :=
    Real.rpow_lt_one (by norm_num) (by norm_num) (by norm_num)
  have key : (1 - (1.01 * 0.975 : ℝ) ^ ((1 : ℝ) / 1.5) / 1.01) /
        (1 - 0.00625) + (1.0025 / (1 - 0.00625)) / 1.01 - 1 =
      (1.0088125 - (1.01 * 0.975 : ℝ) ^ ((1 : ℝ) / 1.5)) / 1.0036875 := by
    ring
  rw [key]
  apply div_pos
  · linarith
  · norm_num

/-- For valid parameters with a positive target denominator, target
consumption lies strictly below target resources. -/
theorem cTargF_lt_mTargF {P : ModelParameters} (hv : P.Valid)
    (hD : 0 < targD P) : cTargF P < mTargF P := by
  obtain ⟨hp, hp1, hβ, hβ1, hR, hΓ, hρ, hρ1⟩ := hv
  have hgr : 0 < ΓCmp P / P.R :=
    div_pos (div_pos hΓ (by linarith)) hR
  have key : κU P / (1 - P.p) < targD P + 1 := by
    unfold targD
    linarith
  have h1D : 0 < 1 / targD P := by positivity
  unfold cTargF mTargF
  calc (κU P / (1 - P.p)) * (1 / targD P)
      < (targD P + 1) * (1 / targD P) := by
        exact mul_lt_mul_of_pos_right key h1D
    _ = 1 + 1 / targD P := by
        field_simp

/-- An `Except` bind yields a success only through a success. -/
theorem bind_eq_ok {ε α β : Type} {e : Except ε α} {f : α → Except ε β}
    {v : β} (h : e.bind f = .ok v) : ∃ a, e = .ok a ∧ f a = .ok v := by
  cases e with
  | error err => simp [Except.bind] at h
  | ok a => exact ⟨a, rfl, h⟩

end TBS

/-- The callback never changes the `Rfree` attribute: any state returned by
a non-crashing call has the `Rfree` it started with. -/
theorem makeTBSplot_Rfree (st : NB.TBSState)
    (d c r g u mMax mMin cMin cMax : ℝ) (pe pr pm sh : Bool)
    (st' : NB.TBSState) (out : NB.PlotOutput)
    (h : NB.makeTBSplot st d c r g u mMax mMin cMin cMax pe pr pm sh =
      .ok (st', out)) : st'.Rfree = st.Rfree := by
  simp only [NB.makeTBSplot] at h
  cases hsv : TBS.solveModel NB.gridDefault
      (NB.paramsOf (NB.writeAttrs st d c g u)) with
  | error err =>
    rw [hsv] at h
    obtain ⟨a1, h1, h⟩ := TBS.bind_eq_ok h
    obtain ⟨a2, h2, h⟩ := TBS.bind_eq_ok h
    obtain ⟨a3, h3, h⟩ := TBS.bind_eq_ok h
    obtain ⟨a4, h4, h⟩ := TBS.bind_eq_ok h
    have hpair := Except.ok.inj h
    have hst : st' = NB.writeAttrs st d c g u :=
      (congrArg Prod.fst hpair).symm
    rw [hst]
    rfl
  | ok sol =>
    rw [hsv] at h
    obtain ⟨a1, h1, h⟩ := TBS.bind_eq_ok h
    obtain ⟨a2, h2, h⟩ := TBS.bind_eq_ok h
    obtain ⟨a3, h3, h⟩ := TBS.bind_eq_ok h
    obtain ⟨a4, h4, h⟩ := TBS.bind_eq_ok h
    have hpair := Except.ok.inj h
    have hst : st' = { NB.writeAttrs st d c g u with
        solution := some sol
        permGroFacCmp := some (TBS.ΓCmp (NB.paramsOf (NB.writeAttrs st d c g u))) } :=
      (congrArg Prod.fst hpair).symm
    rw [hst]
    rfl

/-- Claim C4: the plotted employed consumption curve is zero at zero market
resources (the notebook patches `c[m == 0.] = 0.`), and the solver-side
interpolation policy itself yields `evaluateEmployed(0) = 0` (line through
the origin below the first knot; zero on an empty rule). -/
theorem claim_C4_zero_consumption :
    (∀ sol : TBS.Solution, NB.empPointVal sol 0 = 0) ∧
    (∀ (cf : TBS.EmployedConsumptionFunction) (pk : ℝ × ℝ)
      (rest : List (ℝ × ℝ)), cf.knots = pk :: rest → 0 < pk.1 →
      TBS.evaluateEmployed cf 0 = 0) ∧
    (∀ cf : TBS.EmployedConsumptionFunction, cf.knots = [] →
      TBS.evaluateEmployed cf 0 = 0) := by
  refine ⟨fun sol => by simp [NB.empPointVal], ?_, ?_⟩
  · intro cf pk rest hk hpk
    unfold TBS.evaluateEmployed
    rw [hk]
    have he : TBS.evalFull (pk :: rest) 0 =
        if (0 : ℝ) < pk.1 then TBS.lininterp (0, 0) pk 0
        else TBS.evalKnots (pk :: rest) 0 := rfl
    rw [he, if_pos hpk]
    unfold TBS.lininterp
    simp
  · intro cf hk
    unfold TBS.evaluateEmployed
    rw [hk]
    rfl

/-- Claim C4 (witness): the zero-at-zero properties evaluated at a concrete
solution and a concrete two-knot rule. -/
theorem claim_C4_witness :
    NB.empPointVal NB.dummySolution 0 = 0 ∧
    TBS.evaluateEmployed ⟨[((1 : ℝ), (0.5 : ℝ)), (2, 0.8)]⟩ 0 = 0 :=
  ⟨claim_C4_zero_consumption.1 NB.dummySolution,
   claim_C4_zero_consumption.2.1 ⟨[(1, 0.5), (2, 0.8)]⟩ (1, 0.5) [(2, 0.8)]
     rfl (by norm_num)⟩

/-- Claim C7: for every valid parameter set satisfying the divergence and
growth-impatience conditions, the solve succeeds and the solved employed
rule passes exactly through its own target anchor; concretely, at
`{p = 0.00625, β = 0.975, R = 1.01, Γ = 1.0025, ρ = 1.5}` both conditions
hold, the target satisfies `c* < m*`, and `evaluateEmployed(m*) = c*`
exactly (so in particular to `1e-8` relative tolerance). -/
theorem claim_C7_target_anchor :
    (∀ (P : TBS.ModelParameters) (n : ℕ), P.Valid →
      TBS.divergenceCond P → TBS.growthImpatienceCond P →
      TBS.solveModel n P = .ok (TBS.mkSolution P n) ∧
      TBS.evaluateEmployed (TBS.mkSolution P n).cFunc
        (TBS.mkSolution P n).mTarg = (TBS.mkSolution P n).cTarg) ∧
    (TBS.P7.Valid ∧ TBS.divergenceCond TBS.P7 ∧
      TBS.growthImpatienceCond TBS.P7 ∧
      TBS.cTargF TBS.P7 < TBS.mTargF TBS.P7 ∧
      TBS.evaluateEmployed (TBS.mkSolution TBS.P7 NB.gridDefault).cFunc
        (TBS.mTargF TBS.P7) = TBS.cTargF TBS.P7) := by
  have huniv : ∀ (P : TBS.ModelParameters) (n : ℕ), P.Valid →
      TBS.divergenceCond P → TBS.growthImpatienceCond P →
      TBS.solveModel n P = .ok (TBS.mkSolution P n) ∧
      TBS.evaluateEmployed (TBS.mkSolution P n).cFunc
        (TBS.mkSolution P n).mTarg = (TBS.mkSolution P n).cTarg := by
    intro P n hv h1 h2
    exact ⟨TBS.solveModel_ok h1 h2,
      TBS.buildEmployedRule_anchor P n (TBS.mTargF_ne_zero hv h1)⟩
  refine ⟨huniv, TBS.valid_P7, TBS.divergenceCond_P7,
    TBS.growthImpatienceCond_P7,
    TBS.cTargF_lt_mTargF TBS.valid_P7 TBS.targD_P7_pos, ?_⟩
  exact (huniv TBS.P7 NB.gridDefault TBS.valid_P7 TBS.divergenceCond_P7
    TBS.growthImpatienceCond_P7).2

/-- Claim C7 (witness): the universal anchor property instantiated at the
concrete baseline parameters with all hypotheses discharged. -/
theorem claim_C7_witness :
    TBS.solveModel NB.gridDefault TBS.P7 =
      .ok (TBS.mkSolution TBS.P7 NB.gridDefault) ∧
    TBS.evaluateEmployed (TBS.mkSolution TBS.P7 NB.gridDefault).cFunc
      (TBS.mkSolution TBS.P7 NB.gridDefault).mTarg =
      (TBS.mkSolution TBS.P7 NB.gridDefault).cTarg :=
  claim_C7_target_anchor.1 TBS.P7 NB.gridDefault TBS.valid_P7
    TBS.divergenceCond_P7 TBS.growthImpatienceCond_P7

/-- Claim C8: for every solved parameter set and every `m ≥ 0`, the
unemployed rule evaluates to exactly `κ_U · m` with
`κ_U = 1 − (Rβ)^(1/ρ)/R` (closed form, no interpolation error, no
`DomainError`). -/
theorem claim_C8_unemployed_linear (P : TBS.ModelParameters) (n : ℕ)
    (sol : TBS.Solution) (m : ℝ)
    (hsol : TBS.solveModel n P = .ok sol) (hm : 0 ≤ m) :
    TBS.evaluateUnemployedChecked sol.kappa m =
      .ok ((1 - (P.R * P.β) ^ ((1 : ℝ) / P.ρ) / P.R) * m) := by
  obtain ⟨hsol', h1, h2⟩ := TBS.solveModel_ok_inv hsol
  subst hsol'
  unfold TBS.evaluateUnemployedChecked
  rw [if_neg (not_lt.mpr hm)]
  rfl

/-- Claim C8 (witness): the closed form evaluated at the solved baseline
parameters and `m = 2`. -/
theorem claim_C8_witness :
    TBS.evaluateUnemployedChecked (TBS.mkSolution TBS.P7 NB.gridDefault).kappa 2 =
      .ok ((1 - (TBS.P7.R * TBS.P7.β) ^ ((1 : ℝ) / TBS.P7.ρ) / TBS.P7.R) * 2) :=
  claim_C8_unemployed_linear TBS.P7 NB.gridDefault
    (TBS.mkSolution TBS.P7 NB.gridDefault) 2
    (TBS.solveModel_ok TBS.divergenceCond_P7 TBS.growthImpatienceCond_P7)
    (by norm_num)

/-- Claim C10: the solve outcome is a pure function of the five model
parameters: (i) it does not depend on leftover mutable state (two states
agreeing on the one attribute the callback never writes, `Rfree`, yield
identical solve results under the same slider values); and (ii) re-running
the callback from the state left by any earlier call with the same slider
values re-solves to the identical result. -/
theorem claim_C10_solve_pure :
    (∀ (st1 st2 : NB.TBSState) (d c g u : ℝ), st1.Rfree = st2.Rfree →
      TBS.solveModel NB.gridDefault
        (NB.paramsOf (NB.writeAttrs st1 d c g u)) =
      TBS.solveModel NB.gridDefault
        (NB.paramsOf (NB.writeAttrs st2 d c g u))) ∧
    (∀ (st : NB.TBSState) (d c r g u mMax mMin cMin cMax : ℝ)
      (pe pr pm sh : Bool) (st' : NB.TBSState) (out : NB.PlotOutput),
      NB.makeTBSplot st d c r g u mMax mMin cMin cMax pe pr pm sh =
        .ok (st', out) →
      TBS.solveModel NB.gridDefault
        (NB.paramsOf (NB.writeAttrs st' d c g u)) =
      TBS.solveModel NB.gridDefault
        (NB.paramsOf (NB.writeAttrs st d c g u))) := by
  have hparams : ∀ (st1 st2 : NB.TBSState) (d c g u : ℝ),
      st1.Rfree = st2.Rfree →
      NB.paramsOf (NB.writeAttrs st1 d c g u) =
        NB.paramsOf (NB.writeAttrs st2 d c g u) := by
    intro st1 st2 d c g u h
    unfold NB.paramsOf NB.writeAttrs
    rw [h]
  constructor
  · intro st1 st2 d c g u h
    rw [hparams st1 st2 d c g u h]
  · intro st d c r g u mMax mMin cMin cMax pe pr pm sh st' out h
    rw [hparams st' st d c g u
      (makeTBSplot_Rfree st d c r g u mMax mMin cMin cMax pe pr pm sh st' out h)]

/-- Claim C10 (witness): both purity facts at concrete states: `stFresh`
and `stOther` share `Rfree = 1.01` but differ in every leftover attribute,
and a concrete call from `stFresh` whose follow-up re-solve agrees. -/
theorem claim_C10_witness :
    (TBS.solveModel NB.gridDefault
        (NB.paramsOf (NB.writeAttrs NB.stFresh 0.95 2.5 1.0025 0.00625)) =
      TBS.solveModel NB.gridDefault
        (NB.paramsOf (NB.writeAttrs NB.stOther 0.95 2.5 1.0025 0.00625))) ∧
    (TBS.solveModel NB.gridDefault
        (NB.paramsOf (NB.writeAttrs
          (NB.writeAttrs NB.stFresh 0.975 1.5 0.9 0.00625)
          0.975 1.5 0.9 0.00625)) =
      TBS.solveModel NB.gridDefault
        (NB.paramsOf (NB.writeAttrs NB.stFresh 0.975 1.5 0.9 0.00625))) := by
  have hcall : NB.makeTBSplot NB.stFresh 0.975 1.5 1.01 0.9 0.00625
      50 0 0 1.5 false false false false =
      .ok (NB.writeAttrs NB.stFresh 0.975 1.5 0.9 0.00625,
        ⟨[NB.failMessage], none, none, none, none⟩) := by
    have hs : TBS.solveModel NB.gridDefault
        (NB.paramsOf (NB.writeAttrs NB.stFresh 0.975 1.5 0.9 0.00625)) =
        .error (.NoTargetError TBS.Pntf) :=
      TBS.solveModel_err_targ TBS.divergenceCond_Pntf
        TBS.not_growthImpatienceCond_Pntf
    simp only [NB.makeTBSplot]
    rw [hs]
    simp [NB.ifPlot, Except.bind]
  exact ⟨claim_C10_solve_pure.1 NB.stFresh NB.stOther 0.95 2.5 1.0025 0.00625 rfl,
    claim_C10_solve_pure.2 NB.stFresh 0.975 1.5 1.01 0.9 0.00625
      50 0 0 1.5 false false false false
      (NB.writeAttrs NB.stFresh 0.975 1.5 0.9 0.00625)
      ⟨[NB.failMessage], none, none, none, none⟩ hcall⟩
